import Mathlib

/-!
Verification development for the errore tagged-error factory
(src/factory.ts) and the behaviors its specification describes.

The TypeScript source is shallowly embedded:
  - JS string-or-number values become the inductive type JVal
    (JS numbers are modelled at integer values; String conversion of an
    integer-valued number agrees with Lean's decimal rendering).
  - JS objects whose string-keyed properties are read and assigned become
    ordered association lists over String keys, with assignment setAssoc
    (overwrite in place, append when fresh) and lookup lookupAssoc.
  - The regex scans of factory.ts (parseVariables and the replace call in
    interpolateMessage, both over the pattern dollar-letter-alnumrun)
    become one-pass character state machines that find the same
    leftmost non-overlapping matches.
  - Class identity (used by instanceof, hence by the static is method)
    becomes a numeric class id plus the list of ancestor class ids; a
    user class declared as class X extends createTaggedError(...) is
    identified with the factory-produced class it wraps.
  - Construction order follows the constructor of class Tagged line by
    line: the Error super call installing message and stack, the _tag
    class field, the variable-assignment loop, the name assignment, and
    the conditional Caused-by stack append.
Limits of the model, stated once here: the cause entry of the argument
object is kept in a separate channel (a template variable literally named
cause is outside the model), prototype-inherited members other than the
own properties written during construction are not modelled, and
asynchronous suspension is not modelled (tryCallAsync shares the
synchronous catch behavior, as the spec states).
-/

set_option autoImplicit false

namespace Errore

/-- A JS value supplied for a template variable: string or number
(numbers restricted to integer values). -/
inductive JVal where
  | jstr (s : String)
  | jnum (n : Int)
  deriving DecidableEq, Repr

/-- JS String(value) for a JVal. -/
def JVal.jsString : JVal → String
  | .jstr s => s
  | .jnum n => toString n

/-- JS truthiness of a JVal: a string is truthy when nonempty, a number
when nonzero. -/
def JVal.truthy : JVal → Bool
  | .jstr s => !s.isEmpty
  | .jnum n => n != 0

/-- JS string form of a possibly-undefined property value. -/
def jsStringOfOpt : Option JVal → String
  | some v => v.jsString
  | none => "undefined"

/-- First-match lookup in an ordered association list (JS property read). -/
def lookupAssoc {α : Type} : List (String × α) → String → Option α
  | [], _ => none
  | (k2, v) :: rest, k => if k2 = k then some v else lookupAssoc rest k

/-- JS property assignment on an object modelled as an association list:
overwrite the value in place when the key exists, append otherwise. -/
def setAssoc {α : Type} : List (String × α) → String → α → List (String × α)
  | [], k, v => [(k, v)]
  | (k2, v2) :: rest, k, v =>
      if k2 = k then (k2, v) :: rest else (k2, v2) :: setAssoc rest k v

/-- Character class of the regex bracket a-zA-Z underscore: a valid
identifier start after the dollar sign. -/
def isIdentStart (c : Char) : Bool :=
  (('a' ≤ c && c ≤ 'z') || ('A' ≤ c && c ≤ 'Z') || c = '_')

/-- Character class of the regex bracket a-zA-Z0-9 underscore: a valid
identifier continuation character. -/
def isIdentChar (c : Char) : Bool :=
  isIdentStart c || ('0' ≤ c && c ≤ '9')

/-- State of the one-pass scanner for dollar placeholders: outside any
match, just after a dollar sign, or inside an identifier (accumulator
kept reversed). -/
inductive ScanState where
  | outside
  | dollar
  | ident (acc : List Char)
  deriving Repr

/-- The regex loop of parseVariables in factory.ts: emit the identifier
of every leftmost non-overlapping dollar-placeholder match, in order,
one entry per occurrence. -/
def scanVars (st : ScanState) : List Char → List String
  | [] =>
    match st with
    | .ident acc => [String.mk acc.reverse]
    | _ => []
  | c :: rest =>
    match st with
    | .outside =>
        if c = '$' then scanVars .dollar rest else scanVars .outside rest
    | .dollar =>
        if isIdentStart c then scanVars (.ident [c]) rest
        else if c = '$' then scanVars .dollar rest
        else scanVars .outside rest
    | .ident acc =>
        if isIdentChar c then scanVars (.ident (c :: acc)) rest
        else if c = '$' then String.mk acc.reverse :: scanVars .dollar rest
        else String.mk acc.reverse :: scanVars .outside rest

/-- parseVariables from factory.ts: the identifiers of all dollar
placeholders of the message template, in match order. -/
def parseVariables (message : String) : List String :=
  scanVars .outside message.data

/-- Replacement text for one matched placeholder, from the callback of
interpolateMessage: the JS string form of the supplied value, or the
literal placeholder text when the variable is undefined. -/
def replaceVar (vals : List (String × JVal)) (nameChars : List Char) : List Char :=
  match lookupAssoc vals (String.mk nameChars) with
  | some v => (JVal.jsString v).data
  | none => '$' :: nameChars

/-- The single replace pass of interpolateMessage: same match discipline
as scanVars, emitting unmatched characters unchanged and each match as
its replacement. -/
def interpScan (vals : List (String × JVal)) (st : ScanState) : List Char → List Char
  | [] =>
    match st with
    | .outside => []
    | .dollar => ['$']
    | .ident acc => replaceVar vals acc.reverse
  | c :: rest =>
    match st with
    | .outside =>
        if c = '$' then interpScan vals .dollar rest
        else c :: interpScan vals .outside rest
    | .dollar =>
        if isIdentStart c then interpScan vals (.ident [c]) rest
        else if c = '$' then '$' :: interpScan vals .dollar rest
        else '$' :: c :: interpScan vals .outside rest
    | .ident acc =>
        if isIdentChar c then interpScan vals (.ident (c :: acc)) rest
        else if c = '$' then replaceVar vals acc.reverse ++ interpScan vals .dollar rest
        else replaceVar vals acc.reverse ++ (c :: interpScan vals .outside rest)

/-- interpolateMessage from factory.ts. -/
def interpolateMessage (template : String) (vals : List (String × JVal)) : String :=
  String.mk (interpScan vals .outside template.data)

/-- A segment of a template: literal characters, or one placeholder
(stored by its variable name). -/
inductive Seg where
  | lit (l : List Char)
  | var (name : String)
  deriving DecidableEq, Repr

/-- Segmentation of a template by the same scanner: the decomposition
into literal runs and placeholder matches. Depends only on the template,
never on supplied values. -/
def segScan (st : ScanState) : List Char → List Seg
  | [] =>
    match st with
    | .outside => []
    | .dollar => [.lit ['$']]
    | .ident acc => [.var (String.mk acc.reverse)]
  | c :: rest =>
    match st with
    | .outside =>
        if c = '$' then segScan .dollar rest
        else .lit [c] :: segScan .outside rest
    | .dollar =>
        if isIdentStart c then segScan (.ident [c]) rest
        else if c = '$' then .lit ['$'] :: segScan .dollar rest
        else .lit ['$'] :: .lit [c] :: segScan .outside rest
    | .ident acc =>
        if isIdentChar c then segScan (.ident (c :: acc)) rest
        else if c = '$' then .var (String.mk acc.reverse) :: segScan .dollar rest
        else .var (String.mk acc.reverse) :: .lit [c] :: segScan .outside rest

/-- Rendering of one segment under a value map: literals verbatim,
placeholders by their replacement text. -/
def segRender (vals : List (String × JVal)) : Seg → List Char
  | .lit l => l
  | .var n => replaceVar vals n.data

/-- The variable name of a placeholder segment. -/
def segVar : Seg → Option String
  | .lit _ => none
  | .var n => some n

/-- The global newline replacement in the constructor of factory.ts:
every newline of the cause stack is followed by two spaces. -/
def indentNewlines : List Char → List Char
  | [] => []
  | c :: rest =>
      if c = '\n' then '\n' :: ' ' :: ' ' :: indentNewlines rest
      else c :: indentNewlines rest

/-- Split a character list into its newline-separated lines. -/
def splitLines : List Char → List (List Char)
  | [] => [[]]
  | c :: rest =>
      if c = '\n' then [] :: splitLines rest
      else
        match splitLines rest with
        | [] => [[c]]
        | l :: ls => (c :: l) :: ls

/-- Join lines, indenting every line after the first by two spaces. -/
def joinIndent : List (List Char) → List Char
  | [] => []
  | [l] => l
  | l :: ls => l ++ '\n' :: ' ' :: ' ' :: joinIndent ls

/-- A factory-produced error class: fresh class identity, ancestor class
identities (the prototype chain contributed by the optional base), the
permanent tag, and the message template. -/
structure TaggedClass where
  classId : Nat
  baseIds : List Nat
  tag : String
  template : String
  deriving DecidableEq, Repr

/-- createTaggedError from factory.ts: a fresh class (identity freshId)
extending the optional base class, with the given name as tag and the
given message as template. A user class written as
class X extends createTaggedError(...) is identified with the produced
class. -/
def createTaggedError (freshId : Nat) (name : String) (message : String)
    (base : Option TaggedClass) : TaggedClass :=
  { classId := freshId
  , baseIds :=
      match base with
      | some b => b.classId :: b.baseIds
      | none => []
  , tag := name
  , template := message }

/-- A cause value that is not a factory-produced instance: a plain Error
(with name, message and stack), or a value that is not an Error at all
(kept as an opaque token). -/
inductive ForeignCause where
  | plainErr (name : String) (message : String) (stack : String)
  | opaqueTok (tok : String)
  deriving DecidableEq, Repr

/-- A constructed error instance: the class-identity chain (own class id
followed by ancestor ids), the own string-keyed properties in assignment
order (message, stack, _tag, name and the template variables all live
here, exactly as they are ordinary properties in JS), and the cause. -/
inductive ErrorInst where
  | mk (classIds : List Nat) (props : List (String × JVal))
       (cause : Option (ErrorInst ⊕ ForeignCause))

def ErrorInst.classIds : ErrorInst → List Nat
  | .mk c _ _ => c

def ErrorInst.props : ErrorInst → List (String × JVal)
  | .mk _ p _ => p

def ErrorInst.cause : ErrorInst → Option (ErrorInst ⊕ ForeignCause)
  | .mk _ _ c => c

/-- Property read on an instance. -/
def ErrorInst.getProp (e : ErrorInst) (k : String) : Option JVal :=
  lookupAssoc e.props k

/-- The cause instanceof Error test of the constructor: factory instances
and plain Errors pass, anything else fails. -/
def causeIsError : ErrorInst ⊕ ForeignCause → Bool
  | .inl _ => true
  | .inr (.plainErr _ _ _) => true
  | .inr (.opaqueTok _) => false

/-- The stack property of a cause, when it has one. -/
def causeStackVal : ErrorInst ⊕ ForeignCause → Option JVal
  | .inl i => i.getProp "stack"
  | .inr (.plainErr _ _ s) => some (.jstr s)
  | .inr (.opaqueTok _) => none

/-- The constructor argument object: the string-or-number entries for
template variables, plus the optional cause entry (kept as a separate
channel, see the header comment). -/
structure Args where
  vars : List (String × JVal)
  cause : Option (ErrorInst ⊕ ForeignCause)

/-- A fold of property writes: for each name in order, assign the value
given by g when it is defined, skip the name otherwise. Shared shape of
the constructor variable loop and the toJSON variable loop. -/
def writeLoop {α : Type} (g : String → Option α) (names : List String)
    (ps : List (String × α)) : List (String × α) :=
  names.foldl
    (fun acc n =>
      match g n with
      | some v => setAssoc acc n v
      | none => acc)
    ps

/-- The constructor of class Tagged in factory.ts, step by step:
interpolate the template (or keep it verbatim when the argument object is
omitted), read the optional cause, run the Error super call (installing
the message and the engine-provided stack text ownStack as own
properties), install the _tag class field, assign every parsed template
variable that is present in the argument object, assign name to the tag,
and finally, when the cause is an Error with truthy stack text, append
that stack to the own stack after a Caused-by marker with newlines
indented by two spaces. -/
def mkTaggedInstance (k : TaggedClass) (args : Option Args) (ownStack : String) : ErrorInst :=
  let varNames := parseVariables k.template
  let interpolated :=
    match args with
    | some a => interpolateMessage k.template a.vars
    | none => k.template
  let cause : Option (ErrorInst ⊕ ForeignCause) :=
    match args with
    | some a => a.cause
    | none => none
  let props0 : List (String × JVal) :=
    [("message", .jstr interpolated), ("stack", .jstr ownStack)]
  let props1 := setAssoc props0 "_tag" (.jstr k.tag)
  let props2 :=
    match args with
    | some a => writeLoop (lookupAssoc a.vars) varNames props1
    | none => props1
  let props3 := setAssoc props2 "name" (.jstr k.tag)
  let props4 :=
    match cause with
    | some c =>
        match causeStackVal c with
        | some sv =>
            if causeIsError c && sv.truthy then
              setAssoc props3 "stack"
                (.jstr (jsStringOfOpt (lookupAssoc props3 "stack")
                  ++ "\nCaused by: " ++ String.mk (indentNewlines sv.jsString.data)))
            else props3
        | none => props3
    | none => props3
  .mk (k.classId :: k.baseIds) props4 cause

/-- An arbitrary JS value handed to the static is method: a factory
instance, an Error that did not come from the factory, or a non-Error
value. -/
inductive JSValue where
  | errV (e : ErrorInst)
  | foreignErrV (name : String) (message : String) (stack : String)
  | nonError (tok : String)

/-- The static is method of class Tagged: value instanceof Tagged, that
is, the value is an object whose prototype chain contains the class —
its class-identity chain contains the class id. -/
def TaggedClass.isVal (k : TaggedClass) (v : JSValue) : Bool :=
  match v with
  | .errV e => decide (k.classId ∈ e.classIds)
  | .foreignErrV _ _ _ => false
  | .nonError _ => false

/-- A serialized JSON value in the object returned by toJSON: a
primitive, a nested object, a non-Error cause passed through unchanged
(kept as its opaque token), or undefined. -/
inductive JsonV where
  | prim (v : JVal)
  | obj (fields : List (String × JsonV))
  | raw (tok : String)
  | undefinedV

def jsonOfOpt : Option JVal → JsonV
  | some v => .prim v
  | none => .undefinedV

/-- serializeCause from factory.ts: a cause that is an Error (factory
instance or plain Error) becomes the flat object with its name, message
and stack; any other cause is returned unchanged; an absent cause stays
undefined. -/
def serializeCauseM : Option (ErrorInst ⊕ ForeignCause) → JsonV
  | none => .undefinedV
  | some (.inl i) =>
      .obj [("name", jsonOfOpt (i.getProp "name")),
            ("message", jsonOfOpt (i.getProp "message")),
            ("stack", jsonOfOpt (i.getProp "stack"))]
  | some (.inr (.plainErr n m s)) =>
      .obj [("name", .prim (.jstr n)), ("message", .prim (.jstr m)),
            ("stack", .prim (.jstr s))]
  | some (.inr (.opaqueTok t)) => .raw t

/-- toJSON of class Tagged: build the object with _tag, name, message,
the serialized cause and stack, then assign every parsed template
variable that is present on the instance. -/
def taggedToJSON (k : TaggedClass) (e : ErrorInst) : List (String × JsonV) :=
  let json0 : List (String × JsonV) :=
    [("_tag", jsonOfOpt (e.getProp "_tag")),
     ("name", jsonOfOpt (e.getProp "name")),
     ("message", jsonOfOpt (e.getProp "message")),
     ("cause", serializeCauseM e.cause),
     ("stack", jsonOfOpt (e.getProp "stack"))]
  writeLoop (fun n => (e.getProp n).map JsonV.prim) (parseVariables k.template) json0

/-- Modelled from the spec: the observable outcome of the wrapped
operation — normal completion, raising a recognized error instance, or
raising a value that is not an error instance (kept as an opaque token).
The try wrappers themselves are not under src. -/
inductive OpOutcome (α : Type) where
  | ok (v : α)
  | threwError (e : ErrorInst)
  | threwOther (tok : String)

/-- Modelled from the spec: the caller-visible result of a try wrapper —
the operation result, a caught error returned as a value, or a non-error
exception re-raised to the caller. -/
inductive TryOutcome (α : Type) where
  | ok (v : α)
  | caught (e : ErrorInst)
  | reraised (tok : String)

/-- Modelled from the spec: the default generic unhandled kind used when
no onCaught mapping is supplied. -/
def unhandledClass : TaggedClass :=
  createTaggedError 0 "UnhandledError" "Unhandled error" none

/-- Modelled from the spec: wrap a caught error in the default generic
unhandled kind, recording the original as its cause. -/
def wrapUnhandled (e : ErrorInst) : ErrorInst :=
  mkTaggedInstance unhandledClass (some { vars := [], cause := some (.inl e) }) ""

/-- Modelled from the spec: tryCall — return a normal result unchanged;
catch only recognized error instances, mapping them through onCaught when
supplied and through the default wrapping otherwise; re-raise any other
raised value unchanged. -/
def tryCall {α : Type} (op : OpOutcome α) (onCaught : Option (ErrorInst → ErrorInst)) :
    TryOutcome α :=
  match op with
  | .ok v => .ok v
  | .threwError e =>
      match onCaught with
      | some f => .caught (f e)
      | none => .caught (wrapUnhandled e)
  | .threwOther tok => .reraised tok

/-- Modelled from the spec: tryCallAsync — the asynchronous counterpart;
its catch and re-raise behavior is identical to tryCall, suspension is
not modelled. -/
def tryCallAsync {α : Type} (op : OpOutcome α) (onCaught : Option (ErrorInst → ErrorInst)) :
    TryOutcome α :=
  tryCall op onCaught

/-- Modelled from the spec: a node of the cause graph for the walker —
one instance, given by its class-identity chain and the identity of its
cause when that cause is a recognized error instance. Identities are
explicit so that cyclic graphs are representable, as the spec demands. -/
structure CNode where
  classIds : List Nat
  causeId : Option Nat
  deriving DecidableEq, Repr

/-- Lookup of an instance identity in the cause graph. -/
def lookupNode : List (Nat × CNode) → Nat → Option CNode
  | [], _ => none
  | (i2, nd) :: rest, i => if i2 = i then some nd else lookupNode rest i

/-- Modelled from the spec: the findCause walk — test the current
instance against the target kind (instanceof, via the class-identity
chain); on a match return it; otherwise follow the cause link only when
it exists and has not been visited, and return absent otherwise. The
depth bound is the spec-sanctioned equivalent cycle guard backing the
visited set. -/
def findCauseGo (h : List (Nat × CNode)) (target : Nat) :
    Nat → List Nat → Nat → Option Nat
  | _, _, 0 => none
  | cur, visited, fuel + 1 =>
      match lookupNode h cur with
      | none => none
      | some nd =>
          if target ∈ nd.classIds then some cur
          else
            match nd.causeId with
            | none => none
            | some c =>
                if c ∈ cur :: visited then none
                else findCauseGo h target c (cur :: visited) fuel

/-- Modelled from the spec: findCause on a cause graph, starting with an
empty visited set; the bound of one more than the graph size can never
be the limiting factor before the visited set is. -/
def findCause (h : List (Nat × CNode)) (target : Nat) (start : Nat) : Option Nat :=
  findCauseGo h target start [] (h.length + 1)

/-- A three-instance chain A caused-by B caused-by C with kinds ka, kb,
kc (instance identities are arbitrary labels; representatives 0, 1, 2). -/
def chainHeap (ka kb kc : Nat) : List (Nat × CNode) :=
  [(0, { classIds := [ka], causeId := some 1 }),
   (1, { classIds := [kb], causeId := some 2 }),
   (2, { classIds := [kc], causeId := none })]

/-- The same chain with the cause of C reassigned to A, closing a cycle. -/
def cycleHeap (ka kb kc : Nat) : List (Nat × CNode) :=
  [(0, { classIds := [ka], causeId := some 1 }),
   (1, { classIds := [kb], causeId := some 2 }),
   (2, { classIds := [kc], causeId := some 0 })]

theorem lookupAssoc_setAssoc_same {α : Type} (ps : List (String × α)) (k : String) (v : α) :
    lookupAssoc (setAssoc ps k v) k = some v := by
  induction ps with
  | nil => simp [setAssoc, lookupAssoc]
  | cons p rest ih =>
    obtain ⟨k2, v2⟩ := p
    by_cases h : k2 = k
    · simp [setAssoc, lookupAssoc, h]
    · simp [setAssoc, lookupAssoc, h, ih]

theorem lookupAssoc_setAssoc_other {α : Type} (ps : List (String × α)) (k k2 : String) (v : α)
    (h : k2 ≠ k) : lookupAssoc (setAssoc ps k v) k2 = lookupAssoc ps k2 := by
  have h2 : k ≠ k2 := Ne.symm h
  induction ps with
  | nil => simp [setAssoc, lookupAssoc, h2]
  | cons p rest ih =>
    obtain ⟨k3, v3⟩ := p
    by_cases h3 : k3 = k
    · subst h3
      simp [setAssoc, lookupAssoc, h2]
    · by_cases h4 : k3 = k2
      · subst h4
        simp [setAssoc, lookupAssoc, h3]
      · simp [setAssoc, lookupAssoc, h3, h4, ih]

theorem isIdentStart_dollar : isIdentStart '$' = false := by decide

theorem isIdentChar_dollar : isIdentChar '$' = false := by decide

theorem interpScan_eq_segScan (vals : List (String × JVal)) :
    ∀ (cs : List Char) (st : ScanState),
      interpScan vals st cs = ((segScan st cs).map (segRender vals)).flatten := by
  intro cs
  induction cs with
  | nil =>
    intro st
    cases st <;> simp [interpScan, segScan, segRender]
  | cons c rest ih =>
    intro st
    cases st with
    | outside =>
      by_cases h : c = '$' <;> simp [interpScan, segScan, segRender, h, ih]
    | dollar =>
      by_cases h1 : isIdentStart c
      · simp [interpScan, segScan, h1, ih]
      · by_cases h2 : c = '$' <;> simp [interpScan, segScan, segRender, h1, h2, ih, isIdentStart_dollar, isIdentChar_dollar]
    | ident acc =>
      by_cases h1 : isIdentChar c
      · simp [interpScan, segScan, h1, ih]
      · by_cases h2 : c = '$' <;> simp [interpScan, segScan, segRender, h1, h2, ih, isIdentStart_dollar, isIdentChar_dollar]

theorem scanVars_eq_segScan :
    ∀ (cs : List Char) (st : ScanState),
      scanVars st cs = (segScan st cs).filterMap segVar := by
  intro cs
  induction cs with
  | nil =>
    intro st
    cases st <;> simp [scanVars, segScan, segVar]
  | cons c rest ih =>
    intro st
    cases st with
    | outside =>
      by_cases h : c = '$' <;> simp [scanVars, segScan, segVar, h, ih]
    | dollar =>
      by_cases h1 : isIdentStart c
      · simp [scanVars, segScan, h1, ih]
      · by_cases h2 : c = '$' <;> simp [scanVars, segScan, segVar, h1, h2, ih, isIdentStart_dollar, isIdentChar_dollar]
    | ident acc =>
      by_cases h1 : isIdentChar c
      · simp [scanVars, segScan, h1, ih]
      · by_cases h2 : c = '$' <;> simp [scanVars, segScan, segVar, h1, h2, ih, isIdentStart_dollar, isIdentChar_dollar]

theorem interpolateMessage_eq_render (template : String) (vals : List (String × JVal)) :
    interpolateMessage template vals
      = String.mk (((segScan .outside template.data).map (segRender vals)).flatten) := by
  simp [interpolateMessage, interpScan_eq_segScan]

theorem parseVariables_eq_segVars (template : String) :
    parseVariables template = (segScan .outside template.data).filterMap segVar := by
  simp [parseVariables, scanVars_eq_segScan]

theorem splitLines_ne_nil (cs : List Char) : splitLines cs ≠ [] := by
  induction cs with
  | nil => simp [splitLines]
  | cons c rest ih =>
    by_cases h : c = '\n'
    · simp [splitLines, h]
    · simp only [splitLines, h, if_false]
      cases hs : splitLines rest with
      | nil => simp
      | cons l ls => simp

theorem indentNewlines_eq_joinIndent (cs : List Char) :
    indentNewlines cs = joinIndent (splitLines cs) := by
  induction cs with
  | nil => simp [indentNewlines, splitLines, joinIndent]
  | cons c rest ih =>
    by_cases h : c = '\n'
    · subst h
      cases hs : splitLines rest with
      | nil => exact absurd hs (splitLines_ne_nil rest)
      | cons l ls =>
        simp only [indentNewlines, splitLines, if_pos rfl, hs, ih]
        rfl
    · cases hs : splitLines rest with
      | nil => exact absurd hs (splitLines_ne_nil rest)
      | cons l ls =>
        cases ls with
        | nil => simp [indentNewlines, splitLines, h, hs, joinIndent, ih]
        | cons l2 ls2 => simp [indentNewlines, splitLines, h, hs, joinIndent, ih]

theorem writeLoop_lookup {α : Type} (g : String → Option α) (names : List String)
    (ps : List (String × α)) (n : String) :
    lookupAssoc (writeLoop g names ps) n
      = if n ∈ names ∧ (g n).isSome then g n else lookupAssoc ps n := by
  induction names generalizing ps with
  | nil => simp [writeLoop]
  | cons m rest ih =>
    have step :
        writeLoop g (m :: rest) ps
          = writeLoop g rest (match g m with
              | some v => setAssoc ps m v
              | none => ps) := by
      simp [writeLoop, List.foldl_cons]
    rw [step, ih]
    by_cases hsome : (g n).isSome
    · by_cases hin : n ∈ rest
      · simp [hin, hsome]
      · by_cases hmn : n = m
        · subst hmn
          cases hg : g n with
          | none => simp [hg] at hsome
          | some v => simp [hin, hg, lookupAssoc_setAssoc_same]
        · have hcond : ¬(n ∈ m :: rest) := by
            intro hc
            rcases List.mem_cons.mp hc with h1 | h1
            · exact hmn h1
            · exact hin h1
          cases hg : g m with
          | none => simp [hin, hcond]
          | some v => simp [hin, hcond, lookupAssoc_setAssoc_other ps m n v hmn]
    · have hs : ¬(g n).isSome = true := hsome
      by_cases hmn : n = m
      · subst hmn
        cases hg : g n with
        | none => simp [hg, hs]
        | some v => simp [hg] at hs
      · cases hg : g m with
        | none => simp [hs]
        | some v => simp [hs, lookupAssoc_setAssoc_other ps m n v hmn]

theorem mkTagged_classIds (k : TaggedClass) (args : Option Args) (own : String) :
    (mkTaggedInstance k args own).classIds = k.classId :: k.baseIds := by
  cases args <;> rfl

theorem mkTagged_cause (k : TaggedClass) (a : Args) (own : String) :
    (mkTaggedInstance k (some a) own).cause = a.cause := by
  rfl

theorem mkTagged_getProp_name (k : TaggedClass) (a : Args) (own : String) :
    (mkTaggedInstance k (some a) own).getProp "name" = some (.jstr k.tag) := by
  have hns : ("name" : String) ≠ "stack" := by decide
  unfold mkTaggedInstance
  simp only [ErrorInst.getProp, ErrorInst.props]
  cases hc : a.cause with
  | none => simp [lookupAssoc_setAssoc_same]
  | some c =>
    cases hsv : causeStackVal c with
    | none => simp [hsv, lookupAssoc_setAssoc_same]
    | some sv =>
      by_cases hb : (causeIsError c && sv.truthy) = true
      · simp [hsv, hb, lookupAssoc_setAssoc_other _ _ _ _ hns, lookupAssoc_setAssoc_same]
      · simp [hsv, hb, lookupAssoc_setAssoc_same]

theorem mkTagged_getProp (k : TaggedClass) (a : Args) (own : String) (n : String)
    (hname : n ≠ "name") (hstack : n ≠ "stack") :
    (mkTaggedInstance k (some a) own).getProp n
      = if n ∈ parseVariables k.template ∧ (lookupAssoc a.vars n).isSome
        then lookupAssoc a.vars n
        else if n = "_tag" then some (.jstr k.tag)
        else if n = "message" then some (.jstr (interpolateMessage k.template a.vars))
        else none := by
  have base :
      lookupAssoc
        (setAssoc [("message", JVal.jstr (interpolateMessage k.template a.vars)),
                   ("stack", JVal.jstr own)] "_tag" (.jstr k.tag)) n
        = if n = "_tag" then some (.jstr k.tag)
          else if n = "message" then some (.jstr (interpolateMessage k.template a.vars))
          else none := by
    by_cases h1 : n = "_tag"
    · subst h1
      simp [lookupAssoc_setAssoc_same]
    · have h1s : ("_tag" : String) ≠ n := fun hh => h1 hh.symm
      by_cases h2 : n = "message"
      · subst h2
        simp [setAssoc, lookupAssoc, h1, h1s]
      · have h2s : ("message" : String) ≠ n := fun hh => h2 hh.symm
        have h3s : ("stack" : String) ≠ n := fun hh => hstack hh.symm
        simp [setAssoc, lookupAssoc, h1, h2, h1s, h2s, h3s]
  have main :
      lookupAssoc
        (setAssoc
          (writeLoop (lookupAssoc a.vars) (parseVariables k.template)
            (setAssoc [("message", JVal.jstr (interpolateMessage k.template a.vars)),
                       ("stack", JVal.jstr own)] "_tag" (.jstr k.tag)))
          "name" (.jstr k.tag)) n
        = if n ∈ parseVariables k.template ∧ (lookupAssoc a.vars n).isSome
          then lookupAssoc a.vars n
          else if n = "_tag" then some (.jstr k.tag)
          else if n = "message" then some (.jstr (interpolateMessage k.template a.vars))
          else none := by
    rw [lookupAssoc_setAssoc_other _ _ _ _ hname, writeLoop_lookup, base]
  unfold mkTaggedInstance
  simp only [ErrorInst.getProp, ErrorInst.props]
  cases hc : a.cause with
  | none => exact main
  | some c =>
    cases hsv : causeStackVal c with
    | none =>
      simp only [hsv]
      exact main
    | some sv =>
      by_cases hb : (causeIsError c && sv.truthy) = true
      · simp only [hsv, hb, if_true]
        rw [lookupAssoc_setAssoc_other _ _ _ _ hstack]
        exact main
      · simp only [hsv, hb, if_false]
        exact main

theorem mkTagged_getProp_stack (k : TaggedClass) (a : Args) (own : String)
    (hs : lookupAssoc a.vars "stack" = none) :
    (mkTaggedInstance k (some a) own).getProp "stack"
      = match a.cause with
        | some c =>
            match causeStackVal c with
            | some sv =>
                if causeIsError c && sv.truthy then
                  some (.jstr (own ++ "\nCaused by: "
                    ++ String.mk (indentNewlines sv.jsString.data)))
                else some (.jstr own)
            | none => some (.jstr own)
        | none => some (.jstr own) := by
  have hsn : ("stack" : String) ≠ "name" := by decide
  have pre :
      lookupAssoc
        (setAssoc
          (writeLoop (lookupAssoc a.vars) (parseVariables k.template)
            (setAssoc [("message", JVal.jstr (interpolateMessage k.template a.vars)),
                       ("stack", JVal.jstr own)] "_tag" (.jstr k.tag)))
          "name" (.jstr k.tag)) "stack"
        = some (.jstr own) := by
    rw [lookupAssoc_setAssoc_other _ _ _ _ hsn, writeLoop_lookup]
    simp [hs, setAssoc, lookupAssoc]
  unfold mkTaggedInstance
  simp only [ErrorInst.getProp, ErrorInst.props]
  cases hc : a.cause with
  | none => exact pre
  | some c =>
    cases hsv : causeStackVal c with
    | none =>
      simp only [hsv]
      exact pre
    | some sv =>
      by_cases hb : (causeIsError c && sv.truthy) = true
      · simp only [hsv, hb, if_true]
        rw [lookupAssoc_setAssoc_same, pre]
        rfl
      · simp only [hsv, hb, if_false]
        exact pre

theorem taggedToJSON_lookup (k : TaggedClass) (e : ErrorInst) (n : String) :
    lookupAssoc (taggedToJSON k e) n
      = if n ∈ parseVariables k.template ∧ (e.getProp n).isSome
        then (e.getProp n).map JsonV.prim
        else
          lookupAssoc
            [("_tag", jsonOfOpt (e.getProp "_tag")),
             ("name", jsonOfOpt (e.getProp "name")),
             ("message", jsonOfOpt (e.getProp "message")),
             ("cause", serializeCauseM e.cause),
             ("stack", jsonOfOpt (e.getProp "stack"))] n := by
  unfold taggedToJSON
  rw [writeLoop_lookup]
  by_cases hmem : n ∈ parseVariables k.template ∧ (e.getProp n).isSome
  · simp only [hmem, true_and]
    rcases hmem with ⟨h1, h2⟩
    cases hg : e.getProp n with
    | none => simp [hg] at h2
    | some v => simp [hg]
  · by_cases h1 : n ∈ parseVariables k.template
    · have h2 : ¬(e.getProp n).isSome := fun hh => hmem ⟨h1, hh⟩
      have h3 : ¬(n ∈ parseVariables k.template ∧ ((e.getProp n).map JsonV.prim).isSome) := by
        intro hc
        exact h2 (by simpa using hc.2)
      simp [hmem, h3]
    · have h3 : ¬(n ∈ parseVariables k.template ∧ ((e.getProp n).map JsonV.prim).isSome) :=
        fun hc => h1 hc.1
      simp [hmem, h3]

/-- C2: the frozen claim — at most one output entry per variable name —
fails on the code: parseVariables pushes the captured identifier of every
regex match, so a repeated placeholder repeats its name. -/
theorem claim2_counterexample :
    parseVariables "$a $a" = ["a", "a"] ∧ ¬(parseVariables "$a $a").Nodup :=
  ⟨rfl, by decide⟩

/-- C2 (amended): for every message template, the extractor returns the
placeholder variable names in match order, one entry per placeholder
occurrence (a repeated name is repeated, not deduplicated): precisely the
sequence of variable segments of the template's segmentation. -/
theorem claim2_extractor_occurrences (template : String) :
    parseVariables template = (segScan .outside template.data).filterMap segVar :=
  parseVariables_eq_segVars template

/-- C10: interpolation is single-pass: the output is the concatenation of
the template's segmentation — computed from the template alone — with
each placeholder segment rendered to the string form of its supplied
value, inserted verbatim; placeholder-shaped text inside a supplied value
is never substituted, as the concrete conjunct shows. -/
theorem claim10_single_pass (template : String) (vals : List (String × JVal)) :
    interpolateMessage template vals
      = String.mk (((segScan .outside template.data).map (segRender vals)).flatten)
    ∧ interpolateMessage "v=$a" [("a", JVal.jstr "$other"), ("other", JVal.jstr "X")]
        = "v=$other" :=
  ⟨interpolateMessage_eq_render template vals, rfl⟩

/-- C4 (spec-modelled): a wrapped operation raising a value that is not a
recognized error instance has that value re-raised unchanged, never
converted into an error value; an operation raising a recognized error
instance under a supplied onCaught mapping returns the result of onCaught
on the caught error — for tryCall and for tryCallAsync alike. -/
theorem claim4_try_wrappers (α : Type) (tok : String) (e : ErrorInst)
    (f : ErrorInst → ErrorInst) (h : Option (ErrorInst → ErrorInst)) :
    @tryCall α (.threwOther tok) h = .reraised tok
    ∧ @tryCall α (.threwError e) (some f) = .caught (f e)
    ∧ @tryCallAsync α (.threwOther tok) h = .reraised tok
    ∧ @tryCallAsync α (.threwError e) (some f) = .caught (f e) := by
  refine ⟨?_, rfl, ?_, rfl⟩ <;> cases h <;> rfl

/-- C6: the frozen exact-kind claim fails on the code: is uses
instanceof, so a kind created with another factory kind as its base
produces instances that the base kind's is method also accepts, although
they are produced by a different kind. -/
theorem claim6_counterexample :
    TaggedClass.isVal (createTaggedError 1 "A" "alpha" none)
        (.errV (mkTaggedInstance
          (createTaggedError 2 "B" "beta" (some (createTaggedError 1 "A" "alpha" none)))
          none "S"))
      = true
    ∧ (createTaggedError 2 "B" "beta" (some (createTaggedError 1 "A" "alpha" none))).classId
        ≠ (createTaggedError 1 "A" "alpha" none).classId :=
  ⟨rfl, by decide⟩

/-- C6 (amended): is implements instanceof: for an instance produced by
kind k2 it answers true exactly when the queried kind is k2 itself or an
ancestor of k2 (for example a base passed through createTaggedError); it
is exact for kinds unrelated by inheritance, accepts every instance of
its own kind, and rejects plain Errors and non-error values. -/
theorem claim6_instanceof (k k2 : TaggedClass) (args : Option Args) (own : String)
    (tok nm msg stk : String) :
    (TaggedClass.isVal k (.errV (mkTaggedInstance k2 args own)) = true
       ↔ (k.classId = k2.classId ∨ k.classId ∈ k2.baseIds))
    ∧ TaggedClass.isVal k (.errV (mkTaggedInstance k args own)) = true
    ∧ TaggedClass.isVal k (.foreignErrV nm msg stk) = false
    ∧ TaggedClass.isVal k (.nonError tok) = false := by
  refine ⟨?_, ?_, rfl, rfl⟩
  · simp [TaggedClass.isVal, mkTagged_classIds]
  · simp [TaggedClass.isVal, mkTagged_classIds]

/-- C1: the frozen claim fails on the code: the constructor assigns the
name property to the tag after the variable loop, so a template variable
named name is not stored on the instance with its supplied value. -/
theorem claim1_counterexample :
    (mkTaggedInstance (createTaggedError 1 "K" "hello $name" none)
        (some { vars := [("name", JVal.jstr "x")], cause := none }) "S").getProp "name"
      = some (.jstr "K")
    ∧ (mkTaggedInstance (createTaggedError 1 "K" "hello $name" none)
        (some { vars := [("name", JVal.jstr "x")], cause := none }) "S").getProp "name"
      ≠ some (.jstr "x") :=
  ⟨rfl, by decide⟩

/-- C1 (amended): for every kind whose template variables avoid the
reserved instance properties name, message and stack, and every argument
object supplying a value for every extracted variable: the constructed
message is the full render of the template in which every placeholder
segment resolves to the supplied value's string form (no placeholder left
unresolved), and every extracted variable is stored on the instance with
exactly the supplied value. -/
theorem claim1_fields_and_message (k : TaggedClass) (a : Args) (own : String)
    (hres : ∀ n, n ∈ parseVariables k.template →
      n ≠ "name" ∧ n ≠ "message" ∧ n ≠ "stack")
    (hsup : ∀ n, n ∈ parseVariables k.template → (lookupAssoc a.vars n).isSome) :
    (mkTaggedInstance k (some a) own).getProp "message"
        = some (.jstr (String.mk
            (((segScan .outside k.template.data).map (segRender a.vars)).flatten)))
    ∧ (∀ s, s ∈ segScan .outside k.template.data → ∀ n, s = Seg.var n →
        ∃ v, lookupAssoc a.vars n = some v ∧ segRender a.vars s = v.jsString.data)
    ∧ (∀ n, n ∈ parseVariables k.template →
        (mkTaggedInstance k (some a) own).getProp n = lookupAssoc a.vars n) := by
  have hmsg_notvar :
      ¬("message" ∈ parseVariables k.template
        ∧ (lookupAssoc a.vars "message").isSome) := by
    intro hc
    exact (hres _ hc.1).2.1 rfl
  refine ⟨?_, ?_, ?_⟩
  · rw [mkTagged_getProp k a own "message" (by decide) (by decide)]
    simp [hmsg_notvar, interpolateMessage_eq_render]
  · intro s hs n hn
    subst hn
    have hmem : n ∈ parseVariables k.template := by
      rw [parseVariables_eq_segVars]
      exact List.mem_filterMap.mpr ⟨Seg.var n, hs, rfl⟩
    have hso := hsup n hmem
    cases hv : lookupAssoc a.vars n with
    | none =>
      rw [hv] at hso
      simp at hso
    | some v =>
      have hv2 : lookupAssoc a.vars (String.mk n.data) = some v := hv
      exact ⟨v, rfl, by simp [segRender, replaceVar, hv2]⟩
  · intro n hn
    obtain ⟨h1, h2, h3⟩ := hres n hn
    rw [mkTagged_getProp k a own n h1 h3]
    simp [hn, hsup n hn]

/-- Witness for C1 (amended) at the spec's concrete scenario: kind
NotFoundError with template User-dollar-id-not-found and supplied id. -/
theorem claim1_fields_and_message_witness :
    (mkTaggedInstance (createTaggedError 1 "NotFoundError" "User $id not found" none)
        (some { vars := [("id", JVal.jstr "123")], cause := none }) "S").getProp "message"
      = some (.jstr "User 123 not found")
    ∧ (∀ s, s ∈ segScan .outside ("User $id not found" : String).data → ∀ n, s = Seg.var n →
        ∃ v, lookupAssoc [("id", JVal.jstr "123")] n = some v
          ∧ segRender [("id", JVal.jstr "123")] s = v.jsString.data)
    ∧ (∀ n, n ∈ parseVariables "User $id not found" →
        (mkTaggedInstance (createTaggedError 1 "NotFoundError" "User $id not found" none)
          (some { vars := [("id", JVal.jstr "123")], cause := none }) "S").getProp n
          = lookupAssoc [("id", JVal.jstr "123")] n) :=
  claim1_fields_and_message
    (createTaggedError 1 "NotFoundError" "User $id not found" none)
    { vars := [("id", JVal.jstr "123")], cause := none } "S"
    (by decide) (by decide)

/-- C7: the frozen claim — for every construction with an unsupplied
declared variable, the message retains the literal placeholder — fails
on the code: when a supplied variable is named message, the variable
loop overwrites the interpolated message property with that value, so
the final message retains no placeholder text at all. Template
a-dollar-message-dollar-q with message supplied and q unsupplied ends
with message M, in which the literal dollar-q does not occur. -/
theorem claim7_counterexample :
    parseVariables "a $message $q" = ["message", "q"]
    ∧ lookupAssoc [("message", JVal.jstr "M")] "q" = none
    ∧ (mkTaggedInstance (createTaggedError 1 "K" "a $message $q" none)
        (some { vars := [("message", JVal.jstr "M")], cause := none }) "S").getProp "message"
      = some (.jstr "M")
    ∧ ¬ (('$' :: ("q" : String).data) <:+: ("M" : String).data) :=
  ⟨rfl, rfl, rfl, by decide⟩

/-- C7 (amended): for every construction in which no supplied argument
entry is named message (the reserved message property): construction
with a declared variable missing from the argument object succeeds
(construction is total in the model, no error path), the message keeps
the literal placeholder text for every unsupplied variable, and every
supplied variable is still interpolated. -/
theorem claim7_unsupplied_placeholder (k : TaggedClass) (a : Args) (own : String)
    (hmsg : lookupAssoc a.vars "message" = none) :
    (mkTaggedInstance k (some a) own).getProp "message"
        = some (.jstr (String.mk
            (((segScan .outside k.template.data).map (segRender a.vars)).flatten)))
    ∧ (∀ n, n ∈ parseVariables k.template → lookupAssoc a.vars n = none →
        ('$' :: n.data)
          <:+: ((segScan .outside k.template.data).map (segRender a.vars)).flatten)
    ∧ (∀ n v, n ∈ parseVariables k.template → lookupAssoc a.vars n = some v →
        v.jsString.data
          <:+: ((segScan .outside k.template.data).map (segRender a.vars)).flatten) := by
  refine ⟨?_, ?_, ?_⟩
  · rw [mkTagged_getProp k a own "message" (by decide) (by decide)]
    simp [hmsg, interpolateMessage_eq_render]
  · intro n hn hnone
    rw [parseVariables_eq_segVars] at hn
    obtain ⟨s, hs, hsv⟩ := List.mem_filterMap.mp hn
    cases s with
    | lit l => simp [segVar] at hsv
    | var m =>
      have hm : m = n := by simpa [segVar] using hsv
      subst hm
      have hnone2 : lookupAssoc a.vars (String.mk m.data) = none := hnone
      have hr : segRender a.vars (Seg.var m) = '$' :: m.data := by
        simp [segRender, replaceVar, hnone2]
      rw [← hr]
      exact List.infix_of_mem_flatten (List.mem_map_of_mem (segRender a.vars) hs)
  · intro n v hn hv
    rw [parseVariables_eq_segVars] at hn
    obtain ⟨s, hs, hsv⟩ := List.mem_filterMap.mp hn
    cases s with
    | lit l => simp [segVar] at hsv
    | var m =>
      have hm : m = n := by simpa [segVar] using hsv
      subst hm
      have hv2 : lookupAssoc a.vars (String.mk m.data) = some v := hv
      have hr : segRender a.vars (Seg.var m) = v.jsString.data := by
        simp [segRender, replaceVar, hv2]
      rw [← hr]
      exact List.infix_of_mem_flatten (List.mem_map_of_mem (segRender a.vars) hs)

/-- Witness for C7 at a concrete kind with one supplied and one
unsupplied variable. -/
theorem claim7_unsupplied_placeholder_witness :
    (mkTaggedInstance (createTaggedError 1 "K" "u $id in $db" none)
        (some { vars := [("id", JVal.jstr "7")], cause := none }) "S").getProp "message"
      = some (.jstr "u 7 in $db")
    ∧ (∀ n, n ∈ parseVariables "u $id in $db" →
        lookupAssoc [("id", JVal.jstr "7")] n = none →
        ('$' :: n.data)
          <:+: ((segScan .outside ("u $id in $db" : String).data).map
                  (segRender [("id", JVal.jstr "7")])).flatten)
    ∧ (∀ n v, n ∈ parseVariables "u $id in $db" →
        lookupAssoc [("id", JVal.jstr "7")] n = some v →
        v.jsString.data
          <:+: ((segScan .outside ("u $id in $db" : String).data).map
                  (segRender [("id", JVal.jstr "7")])).flatten) :=
  claim7_unsupplied_placeholder
    (createTaggedError 1 "K" "u $id in $db" none)
    { vars := [("id", JVal.jstr "7")], cause := none } "S" rfl

/-- C9: toJSON is a faithful projection of the instance: the tag, the
message, and every template-variable property present on the instance
read back out of the serialized object with exactly the instance's own
values. -/
theorem claim9_faithful_projection (k : TaggedClass) (e : ErrorInst) :
    (∀ v, e.getProp "_tag" = some v →
        lookupAssoc (taggedToJSON k e) "_tag" = some (.prim v))
    ∧ (∀ v, e.getProp "message" = some v →
        lookupAssoc (taggedToJSON k e) "message" = some (.prim v))
    ∧ (∀ n v, n ∈ parseVariables k.template → e.getProp n = some v →
        lookupAssoc (taggedToJSON k e) n = some (.prim v)) := by
  refine ⟨?_, ?_, ?_⟩
  · intro v hv
    rw [taggedToJSON_lookup]
    by_cases hmem : "_tag" ∈ parseVariables k.template ∧ (e.getProp "_tag").isSome
    · simp [hmem, hv]
    · simp [hmem, lookupAssoc, hv, jsonOfOpt]
  · intro v hv
    rw [taggedToJSON_lookup]
    by_cases hmem : "message" ∈ parseVariables k.template ∧ (e.getProp "message").isSome
    · simp [hmem, hv]
    · simp [hmem, lookupAssoc, hv, jsonOfOpt]
  · intro n v hn hv
    rw [taggedToJSON_lookup]
    have hmem : n ∈ parseVariables k.template ∧ (e.getProp n).isSome := ⟨hn, by simp [hv]⟩
    simp [hmem, hv]

/-- Witness for C9 at a concrete constructed instance. -/
theorem claim9_faithful_projection_witness :
    (∀ v, (mkTaggedInstance (createTaggedError 1 "K" "u $id" none)
        (some { vars := [("id", JVal.jnum 5)], cause := none }) "S").getProp "_tag" = some v →
        lookupAssoc (taggedToJSON (createTaggedError 1 "K" "u $id" none)
          (mkTaggedInstance (createTaggedError 1 "K" "u $id" none)
            (some { vars := [("id", JVal.jnum 5)], cause := none }) "S")) "_tag"
          = some (.prim v))
    ∧ (∀ v, (mkTaggedInstance (createTaggedError 1 "K" "u $id" none)
        (some { vars := [("id", JVal.jnum 5)], cause := none }) "S").getProp "message" = some v →
        lookupAssoc (taggedToJSON (createTaggedError 1 "K" "u $id" none)
          (mkTaggedInstance (createTaggedError 1 "K" "u $id" none)
            (some { vars := [("id", JVal.jnum 5)], cause := none }) "S")) "message"
          = some (.prim v))
    ∧ (∀ n v, n ∈ parseVariables "u $id" →
        (mkTaggedInstance (createTaggedError 1 "K" "u $id" none)
          (some { vars := [("id", JVal.jnum 5)], cause := none }) "S").getProp n = some v →
        lookupAssoc (taggedToJSON (createTaggedError 1 "K" "u $id" none)
          (mkTaggedInstance (createTaggedError 1 "K" "u $id" none)
            (some { vars := [("id", JVal.jnum 5)], cause := none }) "S")) n
          = some (.prim v)) :=
  claim9_faithful_projection (createTaggedError 1 "K" "u $id" none)
    (mkTaggedInstance (createTaggedError 1 "K" "u $id" none)
      (some { vars := [("id", JVal.jnum 5)], cause := none }) "S")

/-- C3: the frozen claim fails on the code: a cause that is a recognized
factory instance is not serialized recursively — serializeCause flattens
every Error cause to a name/message/stack object, so the structured
cause of a concrete nested instance exposes neither its kind tag nor its
field x nor any nested cause, although the instance carries the field. -/
theorem claim3_counterexample :
    lookupAssoc
      (taggedToJSON (createTaggedError 2 "OuterError" "outer failed" none)
        (mkTaggedInstance (createTaggedError 2 "OuterError" "outer failed" none)
          (some { vars := [],
                  cause := some (.inl (mkTaggedInstance
                    (createTaggedError 1 "InnerError" "inner $x" none)
                    (some { vars := [("x", JVal.jnum 1)], cause := none }) "S1")) })
          "S2"))
      "cause"
      = some (JsonV.obj
          [("name", .prim (.jstr "InnerError")),
           ("message", .prim (.jstr "inner 1")),
           ("stack", .prim (.jstr "S1"))])
    ∧ lookupAssoc
        [(("name" : String), JsonV.prim (.jstr "InnerError")),
         ("message", .prim (.jstr "inner 1")),
         ("stack", .prim (.jstr "S1"))] "_tag" = none
    ∧ lookupAssoc
        [(("name" : String), JsonV.prim (.jstr "InnerError")),
         ("message", .prim (.jstr "inner 1")),
         ("stack", .prim (.jstr "S1"))] "x" = none
    ∧ (mkTaggedInstance (createTaggedError 1 "InnerError" "inner $x" none)
        (some { vars := [("x", JVal.jnum 1)], cause := none }) "S1").getProp "x"
      = some (.jnum 1) :=
  ⟨rfl, rfl, rfl, rfl⟩

/-- C3 (amended): toJSON serializes the cause through serializeCause: an
Error cause — recognized factory instance or plain Error alike — becomes
the flat object extracting only its name, message and stack; a cause
that is not an Error passes through unchanged as the raw value; an
absent cause stays undefined. (Stated for instances with no own cause
property, which is every instance the modelled constructor builds.) -/
theorem claim3_cause_serialization (k : TaggedClass) (e : ErrorInst)
    (hnc : e.getProp "cause" = none) :
    lookupAssoc (taggedToJSON k e) "cause" = serializeCauseM e.cause
    ∧ (∀ i, serializeCauseM (some (.inl i))
        = .obj [("name", jsonOfOpt (i.getProp "name")),
                ("message", jsonOfOpt (i.getProp "message")),
                ("stack", jsonOfOpt (i.getProp "stack"))])
    ∧ (∀ nm msg stk, serializeCauseM (some (.inr (.plainErr nm msg stk)))
        = .obj [("name", .prim (.jstr nm)), ("message", .prim (.jstr msg)),
                ("stack", .prim (.jstr stk))])
    ∧ (∀ t, serializeCauseM (some (.inr (.opaqueTok t))) = .raw t)
    ∧ serializeCauseM none = .undefinedV := by
  refine ⟨?_, fun i => rfl, fun nm msg stk => rfl, fun t => rfl, rfl⟩
  rw [taggedToJSON_lookup]
  have hc : ¬("cause" ∈ parseVariables k.template ∧ (e.getProp "cause").isSome) := by
    intro h
    rw [hnc] at h
    simp at h
  simp [hc, lookupAssoc]

/-- Witness for C3 (amended) at a concrete instance wrapping a plain
TypeError cause. -/
theorem claim3_cause_serialization_witness :
    lookupAssoc
      (taggedToJSON (createTaggedError 3 "WrapError" "wrap failed" none)
        (mkTaggedInstance (createTaggedError 3 "WrapError" "wrap failed" none)
          (some { vars := [],
                  cause := some (.inr (.plainErr "TypeError" "boom" "T1")) }) "S"))
      "cause"
      = serializeCauseM (mkTaggedInstance (createTaggedError 3 "WrapError" "wrap failed" none)
          (some { vars := [],
                  cause := some (.inr (.plainErr "TypeError" "boom" "T1")) }) "S").cause
    ∧ (∀ i, serializeCauseM (some (.inl i))
        = .obj [("name", jsonOfOpt (i.getProp "name")),
                ("message", jsonOfOpt (i.getProp "message")),
                ("stack", jsonOfOpt (i.getProp "stack"))])
    ∧ (∀ nm msg stk, serializeCauseM (some (.inr (.plainErr nm msg stk)))
        = .obj [("name", .prim (.jstr nm)), ("message", .prim (.jstr msg)),
                ("stack", .prim (.jstr stk))])
    ∧ (∀ t, serializeCauseM (some (.inr (.opaqueTok t))) = .raw t)
    ∧ serializeCauseM none = .undefinedV :=
  claim3_cause_serialization (createTaggedError 3 "WrapError" "wrap failed" none)
    (mkTaggedInstance (createTaggedError 3 "WrapError" "wrap failed" none)
      (some { vars := [],
              cause := some (.inr (.plainErr "TypeError" "boom" "T1")) }) "S")
    rfl

/-- C8: when the supplied cause is an Error carrying truthy stack text,
the instance's stack becomes its own stack followed by the Caused-by
marker and the cause's stack whose lines are joined with two spaces of
indentation after every newline; when the cause carries no stack text,
has falsy stack text, or is not an Error, the stack is unchanged. -/
theorem claim8_cause_stack (k : TaggedClass) (a : Args) (own : String)
    (c : ErrorInst ⊕ ForeignCause) (hc : a.cause = some c)
    (hs : lookupAssoc a.vars "stack" = none) :
    (∀ sv, causeIsError c = true → causeStackVal c = some sv → sv.truthy = true →
        (mkTaggedInstance k (some a) own).getProp "stack"
          = some (.jstr (own ++ "\nCaused by: "
              ++ String.mk (joinIndent (splitLines sv.jsString.data)))))
    ∧ (causeStackVal c = none →
        (mkTaggedInstance k (some a) own).getProp "stack" = some (.jstr own))
    ∧ (∀ sv, causeStackVal c = some sv → sv.truthy = false →
        (mkTaggedInstance k (some a) own).getProp "stack" = some (.jstr own))
    ∧ (causeIsError c = false →
        (mkTaggedInstance k (some a) own).getProp "stack" = some (.jstr own)) := by
  refine ⟨?_, ?_, ?_, ?_⟩
  · intro sv hce hsv htr
    rw [mkTagged_getProp_stack k a own hs, hc]
    simp [hsv, hce, htr, indentNewlines_eq_joinIndent]
  · intro hsv
    rw [mkTagged_getProp_stack k a own hs, hc]
    simp [hsv]
  · intro sv hsv htr
    rw [mkTagged_getProp_stack k a own hs, hc]
    simp [hsv, htr]
  · intro hce
    rw [mkTagged_getProp_stack k a own hs, hc]
    cases hsv : causeStackVal c with
    | none => simp [hsv]
    | some sv => simp [hsv, hce]

/-- Witness for C8 at a concrete plain-Error cause with a two-line
stack. -/
theorem claim8_cause_stack_witness :
    (∀ sv, causeIsError (.inr (.plainErr "E" "boom" "L1\nL2")) = true →
        causeStackVal (.inr (.plainErr "E" "boom" "L1\nL2")) = some sv → sv.truthy = true →
        (mkTaggedInstance (createTaggedError 4 "K" "m" none)
          (some { vars := [],
                  cause := some (.inr (.plainErr "E" "boom" "L1\nL2")) }) "OWN").getProp "stack"
          = some (.jstr ("OWN" ++ "\nCaused by: "
              ++ String.mk (joinIndent (splitLines sv.jsString.data)))))
    ∧ (causeStackVal (.inr (.plainErr "E" "boom" "L1\nL2")) = none →
        (mkTaggedInstance (createTaggedError 4 "K" "m" none)
          (some { vars := [],
                  cause := some (.inr (.plainErr "E" "boom" "L1\nL2")) }) "OWN").getProp "stack"
          = some (.jstr "OWN"))
    ∧ (∀ sv, causeStackVal (.inr (.plainErr "E" "boom" "L1\nL2")) = some sv →
        sv.truthy = false →
        (mkTaggedInstance (createTaggedError 4 "K" "m" none)
          (some { vars := [],
                  cause := some (.inr (.plainErr "E" "boom" "L1\nL2")) }) "OWN").getProp "stack"
          = some (.jstr "OWN"))
    ∧ (causeIsError (.inr (.plainErr "E" "boom" "L1\nL2")) = false →
        (mkTaggedInstance (createTaggedError 4 "K" "m" none)
          (some { vars := [],
                  cause := some (.inr (.plainErr "E" "boom" "L1\nL2")) }) "OWN").getProp "stack"
          = some (.jstr "OWN")) :=
  claim8_cause_stack (createTaggedError 4 "K" "m" none)
    { vars := [], cause := some (.inr (.plainErr "E" "boom" "L1\nL2")) } "OWN"
    (.inr (.plainErr "E" "boom" "L1\nL2")) rfl rfl

theorem findCauseGo_step (h : List (Nat × CNode)) (t cur : Nat) (visited : List Nat)
    (fuel : Nat) :
    findCauseGo h t cur visited (fuel + 1)
      = (match lookupNode h cur with
         | none => none
         | some nd =>
             if t ∈ nd.classIds then some cur
             else
               match nd.causeId with
               | none => none
               | some c =>
                   if c ∈ cur :: visited then none
                   else findCauseGo h t c (cur :: visited) fuel) := rfl

/-- C5 (spec-modelled): on a chain A caused-by B caused-by C of
recognized instances, findCause from A with the kind of C returns C; with
a kind occurring nowhere in the chain it returns absent; and on the
cyclic graph obtained by reassigning the cause of C to A it terminates
through the visited-identity check and returns absent. Instance
identities are arbitrary labels, fixed here as 0, 1, 2. -/
theorem claim5_findCause (ka kb kc kx : Nat)
    (h1 : ka ≠ kc) (h2 : kb ≠ kc)
    (h3 : kx ≠ ka) (h4 : kx ≠ kb) (h5 : kx ≠ kc) :
    findCause (chainHeap ka kb kc) kc 0 = some 2
    ∧ findCause (chainHeap ka kb kc) kx 0 = none
    ∧ findCause (cycleHeap ka kb kc) kx 0 = none := by
  have n1 : kc ≠ ka := Ne.symm h1
  have n2 : kc ≠ kb := Ne.symm h2
  have s4 : ∀ (h : List (Nat × CNode)) (t cur : Nat) (visited : List Nat),
      findCauseGo h t cur visited 4
        = (match lookupNode h cur with
           | none => none
           | some nd =>
               if t ∈ nd.classIds then some cur
               else
                 match nd.causeId with
                 | none => none
                 | some c =>
                     if c ∈ cur :: visited then none
                     else findCauseGo h t c (cur :: visited) 3) :=
    fun h t cur visited => findCauseGo_step h t cur visited 3
  have s3 : ∀ (h : List (Nat × CNode)) (t cur : Nat) (visited : List Nat),
      findCauseGo h t cur visited 3
        = (match lookupNode h cur with
           | none => none
           | some nd =>
               if t ∈ nd.classIds then some cur
               else
                 match nd.causeId with
                 | none => none
                 | some c =>
                     if c ∈ cur :: visited then none
                     else findCauseGo h t c (cur :: visited) 2) :=
    fun h t cur visited => findCauseGo_step h t cur visited 2
  have s2 : ∀ (h : List (Nat × CNode)) (t cur : Nat) (visited : List Nat),
      findCauseGo h t cur visited 2
        = (match lookupNode h cur with
           | none => none
           | some nd =>
               if t ∈ nd.classIds then some cur
               else
                 match nd.causeId with
                 | none => none
                 | some c =>
                     if c ∈ cur :: visited then none
                     else findCauseGo h t c (cur :: visited) 1) :=
    fun h t cur visited => findCauseGo_step h t cur visited 1
  refine ⟨?_, ?_, ?_⟩
  · show findCauseGo (chainHeap ka kb kc) kc 0 [] 4 = some 2
    rw [s4]
    simp only [chainHeap, lookupNode]
    norm_num [n1, s3, n2, s2, lookupNode]
  · show findCauseGo (chainHeap ka kb kc) kx 0 [] 4 = none
    rw [s4]
    simp only [chainHeap, lookupNode]
    norm_num [h3, s3, h4, s2, h5, lookupNode]
  · show findCauseGo (cycleHeap ka kb kc) kx 0 [] 4 = none
    rw [s4]
    simp only [cycleHeap, lookupNode]
    norm_num [h3, s3, h4, s2, h5, lookupNode]

/-- Witness for C5 at concrete kinds 10, 11, 12 and absent kind 99. -/
theorem claim5_findCause_witness :
    findCause (chainHeap 10 11 12) 12 0 = some 2
    ∧ findCause (chainHeap 10 11 12) 99 0 = none
    ∧ findCause (cycleHeap 10 11 12) 99 0 = none :=
  claim5_findCause 10 11 12 99 (by decide) (by decide) (by decide) (by decide) (by decide)

/-- Witness for C6 (amended): a concrete kind accepts its own instance
and rejects a non-error value. -/
theorem claim6_instanceof_witness :
    TaggedClass.isVal (createTaggedError 5 "C" "c" none)
        (.errV (mkTaggedInstance (createTaggedError 5 "C" "c" none) none "S")) = true
    ∧ TaggedClass.isVal (createTaggedError 5 "C" "c" none) (.nonError "x") = false :=
  ⟨(claim6_instanceof (createTaggedError 5 "C" "c" none)
      (createTaggedError 5 "C" "c" none) none "S" "x" "n" "m" "s").2.1,
   (claim6_instanceof (createTaggedError 5 "C" "c" none)
      (createTaggedError 5 "C" "c" none) none "S" "x" "n" "m" "s").2.2.2⟩

end Errore
